import Mathlib

/-!
Verification of the GEMINI3 military controller
(`src/Gemini3_Mil_Controller_Fix.py`).

The Python class `Gemini3MilController` is embedded shallowly: the mutable
object becomes an explicit record `Ctrl`, each method becomes a pure function
from the record (plus the wall-clock inputs the method reads) to the updated
record and return value.  Floating-point quantities of the source
(`response_time_ms`, `accuracy`, times) are modelled as rationals; the
arithmetic the claims touch is exact at these values.  Python dictionaries of
operations become an `Operation` record with `Option` fields (a `none` field
is an absent key), and the two response-dictionary shapes of the source become
the two constructors of `PyResponse`.
-/

namespace Gemini3

/-- Enum `OperationalState` of the source (lines 29-37). -/
inductive OperationalState where
  | OFFLINE
  | INITIALIZING
  | READY
  | ACTIVE
  | DEGRADED
  | FAILED
  | MAINTENANCE
deriving DecidableEq, Repr

/-- Enum `ThreatLevel` of the source (lines 40-46); `value` below gives the
numeric value of each member. -/
inductive ThreatLevel where
  | NONE
  | LOW
  | MEDIUM
  | HIGH
  | CRITICAL
deriving DecidableEq, Repr

/-- The numeric `.value` of a `ThreatLevel` member (lines 42-46). -/
def ThreatLevel.value : ThreatLevel → Nat
  | .NONE => 0
  | .LOW => 1
  | .MEDIUM => 2
  | .HIGH => 3
  | .CRITICAL => 4

/-- The controller configuration dictionary built in `__init__`
(lines 93-99).  It is never written after construction. -/
structure Config where
  max_response_time_ms : ℚ
  min_accuracy_threshold : ℚ
  sync_interval_seconds : ℚ
  health_check_interval_seconds : ℚ
  auto_recovery_enabled : Bool
deriving DecidableEq, Repr

/-- The concrete configuration values of `__init__` (lines 93-99). -/
def defaultConfig : Config :=
  { max_response_time_ms := 100
    min_accuracy_threshold := 9997 / 10000
    sync_interval_seconds := 1
    health_check_interval_seconds := 5
    auto_recovery_enabled := true }

/-- The mutable state of a `Gemini3MilController` object: its operational
state, the `ControllerMetrics` dataclass fields (lines 49-57), `start_time`,
the configuration and the `running` flag. -/
structure Ctrl where
  state : OperationalState
  start_time : ℚ
  response_time_ms : ℚ
  accuracy : ℚ
  uptime_seconds : ℚ
  processed_operations : Nat
  errors_count : Nat
  threats_neutralized : Nat
  config : Config
  running : Bool
deriving DecidableEq, Repr

/-- `__init__` (lines 79-107): state `OFFLINE`, all metrics zero, default
configuration, `running = False`; `t0` is the construction wall-clock time
stored in `start_time`. -/
def mkController (t0 : ℚ) : Ctrl :=
  { state := .OFFLINE
    start_time := t0
    response_time_ms := 0
    accuracy := 0
    uptime_seconds := 0
    processed_operations := 0
    errors_count := 0
    threats_neutralized := 0
    config := defaultConfig
    running := false }

/-- An operation request dictionary.  A `none` field models an absent key;
`payload` is opaque, only its presence matters (the source never inspects
its contents). -/
structure Operation where
  id : Option String
  type : Option String
  priority : Option String
  payload : Option Unit
deriving DecidableEq, Repr

/-- The two response-dictionary shapes the source returns:
`{'success': False, 'error': e}` and the success record of
`_generate_response` (lines 314-320). -/
inductive PyResponse where
  | failure (error : String)
  | success (operation_id : String) (threat_level : Nat) (status : String)
      (timestamp : String)
deriving DecidableEq, Repr

/-- `_validate_system_requirements` (lines 248-253): logs and returns `True`. -/
def validate_system_requirements : Bool := true

/-- `_load_controller_configuration` (lines 256-261): logs and returns `True`. -/
def load_controller_configuration : Bool := true

/-- `_establish_secure_connections` (lines 264-278): logs the four connection
names and returns `True`. -/
def establish_secure_connections : Bool := true

/-- `_initialize_synchronization` (lines 281-285): logs and returns `True`. -/
def init_synchronization : Bool := true

/-- The call to `_establish_secure_connections` viewed with its exception
behaviour explicit: the body raises nothing and returns
`establish_secure_connections`, hence `.ok`. -/
def establish_secure_connections_exc : Except String Bool :=
  .ok establish_secure_connections

/-- `initialize` (lines 109-142): sets state `INITIALIZING`, runs the four
steps, returns `False` (leaving state `INITIALIZING`) if any step returns
`False`, otherwise sets state `READY` and returns `True`.  The `except`
branch (state `FAILED`) has no counterpart because no step raises. -/
def controller_init (s : Ctrl) : Bool × Ctrl :=
  let s0 : Ctrl := { s with state := OperationalState.INITIALIZING }
  if ¬ validate_system_requirements then (false, s0)
  else if ¬ load_controller_configuration then (false, s0)
  else if ¬ establish_secure_connections then (false, s0)
  else if ¬ init_synchronization then (false, s0)
  else (true, { s0 with state := OperationalState.READY })

/-- `start` (lines 144-176): requires state `READY`, else fails leaving the
state unchanged; otherwise sets `running`, spawns the two loops and sets
state `ACTIVE`. -/
def start (s : Ctrl) : Bool × Ctrl :=
  if s.state ≠ OperationalState.READY then (false, s)
  else (true, { s with running := true, state := OperationalState.ACTIVE })

/-- `stop` (lines 178-197): clears `running`, joins the loops with a timeout
(which cannot raise) and sets state `OFFLINE`, with no check of the current
state. -/
def stop (s : Ctrl) : Bool × Ctrl :=
  (true, { s with running := false, state := OperationalState.OFFLINE })

/-- `_validate_operation` (lines 288-291): the keys `type`, `priority`,
`payload` must all be present. -/
def validate_operation (op : Operation) : Bool :=
  op.type.isSome && op.priority.isSome && op.payload.isSome

/-- The `threat_mapping` dictionary lookup of `_assess_threat`
(lines 298-303): `dict.get` with no hit is `none`. -/
def threat_mapping (p : String) : Option ThreatLevel :=
  if p = "CRITICAL" then some .CRITICAL
  else if p = "HIGH" then some .HIGH
  else if p = "MEDIUM" then some .MEDIUM
  else if p = "LOW" then some .LOW
  else none

/-- `_assess_threat` (lines 294-305): `operation.get('priority', 'LOW')`
defaults an absent priority to the string `"LOW"`, then the table lookup
defaults to `ThreatLevel.NONE`. -/
def assess_threat (op : Operation) : ThreatLevel :=
  let priority := op.priority.getD "LOW"
  (threat_mapping priority).getD ThreatLevel.NONE

/-- `_generate_response` (lines 308-320); `ts` is the wall-clock timestamp
string the method reads. -/
def generate_response (op : Operation) (threat : ThreatLevel) (ts : String) :
    PyResponse :=
  .success (op.id.getD "UNKNOWN") threat.value "PROCESSED" ts

/-- `process_operation` (lines 199-232); `elapsed_ms` is the measured
wall-clock elapsed time and `ts` the response timestamp, both inputs of the
environment.  The `except` branch (line 229) has no counterpart because no
statement of the guarded block raises. -/
def process_operation (s : Ctrl) (op : Operation) (elapsed_ms : ℚ)
    (ts : String) : PyResponse × Ctrl :=
  if s.state ≠ OperationalState.ACTIVE then
    (.failure "Controller not active", s)
  else if ¬ validate_operation op then
    (.failure "Invalid operation", { s with errors_count := s.errors_count + 1 })
  else
    let threat := assess_threat op
    let resp := generate_response op threat ts
    let s1 : Ctrl := { s with processed_operations := s.processed_operations + 1
                              response_time_ms := elapsed_ms }
    if threat.value ≥ ThreatLevel.MEDIUM.value then
      (resp, { s1 with threats_neutralized := s1.threats_neutralized + 1 })
    else (resp, s1)

/-- `get_status` (lines 234-245): recomputes `uptime_seconds` from the current
time `now`; nothing else changes. -/
def get_status (now : ℚ) (s : Ctrl) : Ctrl :=
  { s with uptime_seconds := now - s.start_time }

/-- The entry of `_auto_recovery` (lines 373-379): state `DEGRADED`, then
`response_time_ms` reset to `0`. -/
def recovery_begin (s : Ctrl) : Ctrl :=
  { s with state := OperationalState.DEGRADED, response_time_ms := 0 }

/-- `_auto_recovery` (lines 371-389) with the result of the
`_establish_secure_connections` call abstracted as `e`: after the entry,
a normal return of the call leads to state `ACTIVE`, an exception to state
`FAILED`.  The boolean the call returns is ignored, as in the source. -/
def auto_recovery_with (e : Except String Bool) (s : Ctrl) : Ctrl :=
  let s1 := recovery_begin s
  match e with
  | .ok _ => { s1 with state := OperationalState.ACTIVE }
  | .error _ => { s1 with state := OperationalState.FAILED }

/-- `_auto_recovery` as it runs in the source, with the actual
connection-establishment step. -/
def auto_recovery (s : Ctrl) : Ctrl :=
  auto_recovery_with establish_secure_connections_exc s

/-- The accuracy recomputation of the health-monitor body (lines 337-340). -/
def recompute_accuracy (s : Ctrl) : Ctrl :=
  if s.processed_operations > 0 then
    { s with accuracy :=
        1 - (s.errors_count : ℚ) / (s.processed_operations : ℚ) }
  else s

/-- One iteration of `_health_monitor_loop` (lines 326-343): if
`response_time_ms` exceeds the threshold and auto-recovery is enabled,
run `_auto_recovery`; then recompute accuracy. -/
def health_monitor_cycle (s : Ctrl) : Ctrl :=
  let s1 :=
    if s.response_time_ms > s.config.max_response_time_ms then
      if s.config.auto_recovery_enabled then auto_recovery s else s
    else s
  recompute_accuracy s1

/-- One iteration of `_sync_loop` (lines 345-359): both synchronization hooks
are no-op stubs (lines 361-369), so the state is unchanged. -/
def sync_cycle (s : Ctrl) : Ctrl := s

/-- One observable operation of the controller: a call of a public method or
one wake-up of a background loop (the loops only run while `running` is set;
their sleeps and the wall-clock inputs are the environment's choice).  This
is the step relation the reachability and monotonicity claims quantify over. -/
inductive Step : Ctrl → Ctrl → Prop where
  | init_step (s : Ctrl) : Step s (controller_init s).2
  | start_step (s : Ctrl) : Step s (start s).2
  | stop_step (s : Ctrl) : Step s (stop s).2
  | process_step (s : Ctrl) (op : Operation) (e : ℚ) (ts : String)
      (h : 0 ≤ e) : Step s (process_operation s op e ts).2
  | health_step (s : Ctrl) (h : s.running = true) :
      Step s (health_monitor_cycle s)
  | sync_step (s : Ctrl) (h : s.running = true) : Step s (sync_cycle s)
  | status_step (s : Ctrl) (now : ℚ) : Step s (get_status now s)

/-- The controller states reachable from a freshly constructed controller by
any sequence of operations. -/
inductive Reach : Ctrl → Prop where
  | base (t0 : ℚ) : Reach (mkController t0)
  | step {s s' : Ctrl} : Reach s → Step s s' → Reach s'

/-- The transition graph of the specification, section 4.1, as a predicate on
edges.  This definition follows the SPEC's words, for comparison with the
behaviour of the source: `OFFLINE→INITIALIZING→READY→ACTIVE`,
`ACTIVE→DEGRADED→ACTIVE`, `DEGRADED→FAILED`, any state `→FAILED`,
`ACTIVE→OFFLINE`. -/
def spec_allowed_edge (a b : OperationalState) : Bool :=
  (a = .OFFLINE ∧ b = .INITIALIZING) ∨
  (a = .INITIALIZING ∧ b = .READY) ∨
  (a = .READY ∧ b = .ACTIVE) ∨
  (a = .ACTIVE ∧ b = .DEGRADED) ∨
  (a = .DEGRADED ∧ b = .ACTIVE) ∨
  (a = .DEGRADED ∧ b = .FAILED) ∨
  (b = .FAILED) ∨
  (a = .ACTIVE ∧ b = .OFFLINE)

/-- An operation with all required keys absent. -/
def op_missing : Operation :=
  { id := none, type := none, priority := none, payload := none }

/-- A valid operation of priority `LOW`. -/
def op_low : Operation :=
  { id := none, type := some "SCAN", priority := some "LOW",
    payload := some () }

/-- The valid operation of the specification's scenario:
`{id:"OP1", type:"SCAN", priority:"HIGH", payload:{}}`. -/
def op_high_op1 : Operation :=
  { id := some "OP1", type := some "SCAN", priority := some "HIGH",
    payload := some () }

/-- A valid operation whose priority string is not in the lookup table. -/
def op_urgent : Operation :=
  { id := none, type := some "SCAN", priority := some "URGENT",
    payload := some () }

/-- A valid operation of priority `CRITICAL`. -/
def op_critical : Operation :=
  { id := none, type := some "SCAN", priority := some "CRITICAL",
    payload := some () }

/-- An operation with `type` and `payload` present but no `priority` key. -/
def op_no_priority : Operation :=
  { id := none, type := some "SCAN", priority := none, payload := some () }

/-- A controller taken through `initialize` and `start`: state `ACTIVE`,
`running`, all metrics still zero. -/
def active_ctrl : Ctrl := (start (controller_init (mkController 0)).2).2

/-- The controller state reached from a fresh controller by `initialize`,
`start`, two invalid operations and one valid `LOW` operation: one processed
operation, two errors.  Running a health cycle here drives `accuracy`
to `-1`. -/
def c3_state : Ctrl :=
  { state := OperationalState.ACTIVE
    start_time := 0
    response_time_ms := 1
    accuracy := 0
    uptime_seconds := 0
    processed_operations := 1
    errors_count := 2
    threats_neutralized := 0
    config := defaultConfig
    running := true }

/-- The controller state reached from a fresh controller by `initialize`,
`start`, one valid `HIGH` operation, a health cycle (which sets `accuracy`
to `1`), one invalid operation and one valid `LOW` operation.  The next
health cycle lowers `accuracy` from `1` to `1/2`. -/
def c9_state : Ctrl :=
  { state := OperationalState.ACTIVE
    start_time := 0
    response_time_ms := 1
    accuracy := 1
    uptime_seconds := 0
    processed_operations := 2
    errors_count := 1
    threats_neutralized := 1
    config := defaultConfig
    running := true }

/-- A controller in `ACTIVE` state whose last response time, `150` ms,
exceeds the configured `max_response_time_ms` of `100`: the scenario of the
specification's recovery trigger. -/
def slow_ctrl : Ctrl := { active_ctrl with response_time_ms := 150 }

/-- The controller after `initialize`, `start` and one valid `HIGH`
operation with elapsed time `1` ms. -/
def c9_a : Ctrl :=
  { state := OperationalState.ACTIVE
    start_time := 0
    response_time_ms := 1
    accuracy := 0
    uptime_seconds := 0
    processed_operations := 1
    errors_count := 0
    threats_neutralized := 1
    config := defaultConfig
    running := true }

/-- The controller `c9_a` after one health cycle: accuracy recomputed
to `1`. -/
def c9_b : Ctrl := { c9_a with accuracy := 1 }

/-- The controller `c9_b` after one invalid operation: one error counted. -/
def c9_c : Ctrl := { c9_b with errors_count := 1 }

/- ------------------------------------------------------------------ -/
/- Characterization lemmas for the embedded methods.                   -/
/- ------------------------------------------------------------------ -/

theorem controller_init_eq (s : Ctrl) :
    controller_init s = (true, { s with state := OperationalState.READY }) :=
  rfl

theorem stop_eq (s : Ctrl) :
    stop s =
      (true, { s with running := false, state := OperationalState.OFFLINE }) :=
  rfl

theorem start_of_ready (s : Ctrl) (h : s.state = OperationalState.READY) :
    start s =
      (true, { s with running := true, state := OperationalState.ACTIVE }) := by
  simp [start, h]

theorem start_of_not_ready (s : Ctrl) (h : s.state ≠ OperationalState.READY) :
    start s = (false, s) := by
  simp [start, h]

theorem process_of_not_active (s : Ctrl) (op : Operation) (e : ℚ)
    (ts : String) (h : s.state ≠ OperationalState.ACTIVE) :
    process_operation s op e ts = (.failure "Controller not active", s) := by
  simp [process_operation, h]

theorem process_of_invalid (s : Ctrl) (op : Operation) (e : ℚ) (ts : String)
    (h : s.state = OperationalState.ACTIVE)
    (hv : validate_operation op = false) :
    process_operation s op e ts =
      (.failure "Invalid operation",
       { s with errors_count := s.errors_count + 1 }) := by
  simp [process_operation, h, hv]

theorem process_of_valid_high (s : Ctrl) (op : Operation) (e : ℚ)
    (ts : String) (h : s.state = OperationalState.ACTIVE)
    (hv : validate_operation op = true)
    (ht : ThreatLevel.MEDIUM.value ≤ (assess_threat op).value) :
    process_operation s op e ts =
      (generate_response op (assess_threat op) ts,
       { s with processed_operations := s.processed_operations + 1,
                 response_time_ms := e,
                 threats_neutralized := s.threats_neutralized + 1 }) := by
  simp [process_operation, h, hv, ht]

theorem process_of_valid_low (s : Ctrl) (op : Operation) (e : ℚ)
    (ts : String) (h : s.state = OperationalState.ACTIVE)
    (hv : validate_operation op = true)
    (ht : ¬ ThreatLevel.MEDIUM.value ≤ (assess_threat op).value) :
    process_operation s op e ts =
      (generate_response op (assess_threat op) ts,
       { s with processed_operations := s.processed_operations + 1,
                 response_time_ms := e }) := by
  simp [process_operation, h, hv, ht]

theorem auto_recovery_eq (s : Ctrl) :
    auto_recovery s =
      { s with state := OperationalState.ACTIVE, response_time_ms := 0 } :=
  rfl

theorem recompute_accuracy_of_pos (s : Ctrl)
    (h : 0 < s.processed_operations) :
    recompute_accuracy s =
      { s with accuracy :=
          1 - (s.errors_count : ℚ) / (s.processed_operations : ℚ) } := by
  simp [recompute_accuracy, h]

theorem recompute_accuracy_of_zero (s : Ctrl)
    (h : s.processed_operations = 0) : recompute_accuracy s = s := by
  simp [recompute_accuracy, h]

theorem recompute_accuracy_state (s : Ctrl) :
    (recompute_accuracy s).state = s.state := by
  unfold recompute_accuracy
  split <;> rfl

theorem health_cycle_of_calm (s : Ctrl)
    (h : ¬ s.config.max_response_time_ms < s.response_time_ms) :
    health_monitor_cycle s = recompute_accuracy s := by
  simp [health_monitor_cycle, h]

theorem health_cycle_of_disabled (s : Ctrl)
    (h : s.config.auto_recovery_enabled = false) :
    health_monitor_cycle s = recompute_accuracy s := by
  unfold health_monitor_cycle
  split
  · simp [h]
  · rfl

theorem health_cycle_of_slow (s : Ctrl)
    (h : s.config.max_response_time_ms < s.response_time_ms)
    (h2 : s.config.auto_recovery_enabled = true) :
    health_monitor_cycle s = recompute_accuracy (auto_recovery s) := by
  simp [health_monitor_cycle, h, h2]

theorem active_ctrl_eq :
    active_ctrl = { state := OperationalState.ACTIVE
                    start_time := 0
                    response_time_ms := 0
                    accuracy := 0
                    uptime_seconds := 0
                    processed_operations := 0
                    errors_count := 0
                    threats_neutralized := 0
                    config := defaultConfig
                    running := true } :=
  rfl

theorem start_accuracy (s : Ctrl) : ((start s).2).accuracy = s.accuracy := by
  unfold start
  split <;> rfl

theorem process_accuracy (s : Ctrl) (op : Operation) (e : ℚ) (ts : String) :
    ((process_operation s op e ts).2).accuracy = s.accuracy := by
  unfold process_operation
  split
  · rfl
  · split
    · rfl
    · dsimp only
      split <;> rfl

theorem recompute_accuracy_le_one (s : Ctrl) (h : s.accuracy ≤ 1) :
    (recompute_accuracy s).accuracy ≤ 1 := by
  unfold recompute_accuracy
  split
  · dsimp only
    have h0 : (0:ℚ) ≤ (s.errors_count : ℚ) / (s.processed_operations : ℚ) := by
      positivity
    linarith
  · exact h

theorem health_cycle_accuracy_le_one (s : Ctrl) (h : s.accuracy ≤ 1) :
    (health_monitor_cycle s).accuracy ≤ 1 := by
  simp only [health_monitor_cycle]
  apply recompute_accuracy_le_one
  split
  · split
    · exact h
    · exact h
  · exact h

theorem health_cycle_counters (s : Ctrl) :
    (health_monitor_cycle s).processed_operations = s.processed_operations ∧
    (health_monitor_cycle s).errors_count = s.errors_count ∧
    (health_monitor_cycle s).threats_neutralized = s.threats_neutralized := by
  simp only [health_monitor_cycle, recompute_accuracy]
  refine ⟨?_, ?_, ?_⟩ <;> (repeat' split) <;> simp [auto_recovery_eq]

/- ------------------------------------------------------------------ -/
/- Claim theorems.                                                     -/
/- ------------------------------------------------------------------ -/

/-- C1, counterexample: the claim says an operation with an absent
`priority` field is assessed as `NONE`, but `_assess_threat` defaults an
absent priority to the string `"LOW"` before the table lookup and therefore
returns `LOW`. -/
theorem C1_counterexample :
    assess_threat op_no_priority = ThreatLevel.LOW ∧
    ThreatLevel.LOW ≠ ThreatLevel.NONE := by
  decide

/-- C1 (amended): `assess_threat` is total: a present priority equal to one
of `CRITICAL`, `HIGH`, `MEDIUM`, `LOW` returns the matching level; an absent
priority field returns `LOW` (the lookup defaults the missing value to the
string `LOW`); any other present value returns `NONE`. -/
theorem C1_assess_threat_amended (op : Operation) :
    (op.priority = some "CRITICAL" →
      assess_threat op = ThreatLevel.CRITICAL) ∧
    (op.priority = some "HIGH" → assess_threat op = ThreatLevel.HIGH) ∧
    (op.priority = some "MEDIUM" → assess_threat op = ThreatLevel.MEDIUM) ∧
    (op.priority = some "LOW" → assess_threat op = ThreatLevel.LOW) ∧
    (op.priority = none → assess_threat op = ThreatLevel.LOW) ∧
    (∀ p : String, op.priority = some p → p ≠ "CRITICAL" → p ≠ "HIGH" →
      p ≠ "MEDIUM" → p ≠ "LOW" → assess_threat op = ThreatLevel.NONE) := by
  refine ⟨?_, ?_, ?_, ?_, ?_, ?_⟩
  · intro h; simp [assess_threat, threat_mapping, h]
  · intro h; simp [assess_threat, threat_mapping, h]
  · intro h; simp [assess_threat, threat_mapping, h]
  · intro h; simp [assess_threat, threat_mapping, h]
  · intro h; simp [assess_threat, threat_mapping, h]
  · intro p hp h1 h2 h3 h4
    simp [assess_threat, threat_mapping, hp, h1, h2, h3, h4]

/-- C1 witness: the amended table at three concrete operations — priority
`CRITICAL`, absent priority, unmapped priority `URGENT`. -/
theorem C1_assess_threat_amended_witness :
    assess_threat op_critical = ThreatLevel.CRITICAL ∧
    assess_threat op_no_priority = ThreatLevel.LOW ∧
    assess_threat op_urgent = ThreatLevel.NONE :=
  ⟨(C1_assess_threat_amended op_critical).1 rfl,
   (C1_assess_threat_amended op_no_priority).2.2.2.2.1 rfl,
   (C1_assess_threat_amended op_urgent).2.2.2.2.2 "URGENT" rfl
     (by decide) (by decide) (by decide) (by decide)⟩

/-- C3, counterexample: the state reached from a fresh controller by
`initialize`, `start`, two invalid operations and one valid `LOW` operation,
followed by a health-monitor cycle, is reachable, has
`processed_operations = 1 > 0` and accuracy `-1 ∉ [0,1]`: validation
failures increment `errors_count` without incrementing
`processed_operations`, so `errors_count` (here 2) can exceed
`processed_operations` (here 1). -/
theorem C3_counterexample :
    Reach (health_monitor_cycle c3_state) ∧
    0 < (health_monitor_cycle c3_state).processed_operations ∧
    (health_monitor_cycle c3_state).accuracy = -1 := by
  have hreach : Reach c3_state := by
    have h0 : Reach (mkController 0) := Reach.base 0
    have h1 := Reach.step h0 (Step.init_step _)
    have h2 := Reach.step h1 (Step.start_step _)
    have h3 := Reach.step h2
      (Step.process_step _ op_missing 1 "t" (by norm_num))
    have h4 := Reach.step h3
      (Step.process_step _ op_missing 1 "t" (by norm_num))
    have h5 := Reach.step h4
      (Step.process_step _ op_low 1 "t" (by norm_num))
    exact h5
  refine ⟨Reach.step hreach (Step.health_step _ rfl), ?_, ?_⟩
  · rw [health_cycle_of_calm _ (by decide),
      recompute_accuracy_of_pos _ (by decide)]
    decide
  · rw [health_cycle_of_calm _ (by decide),
      recompute_accuracy_of_pos _ (by decide)]
    norm_num [c3_state]

/-- C3 (amended): in every reachable controller state, `accuracy ≤ 1`
(`errors_count` is never negative), but `accuracy` can fall below `0`
because validation failures increment `errors_count` without incrementing
`processed_operations`, so `errors_count` may exceed
`processed_operations`. -/
theorem C3_accuracy_le_one (s : Ctrl) (h : Reach s) : s.accuracy ≤ 1 := by
  induction h with
  | base t0 => norm_num [mkController]
  | step hr hst ih =>
    cases hst with
    | init_step => exact ih
    | start_step => rw [start_accuracy]; exact ih
    | stop_step => exact ih
    | process_step op e ts hp => rw [process_accuracy]; exact ih
    | health_step hr2 => exact health_cycle_accuracy_le_one _ ih
    | sync_step hr2 => exact ih
    | status_step now => exact ih

/-- C3 witness: the accuracy bound at the freshly constructed controller. -/
theorem C3_accuracy_le_one_witness : (mkController 0).accuracy ≤ 1 :=
  C3_accuracy_le_one (mkController 0) (Reach.base 0)

/-- C4: for every operation missing at least one of the keys `type`,
`priority`, `payload`, processing on an `ACTIVE` controller returns the
failure response `Invalid operation`, increments `errors_count` by exactly 1
and leaves `processed_operations`, `threats_neutralized` and
`response_time_ms` unchanged. -/
theorem C4_invalid_operation (s : Ctrl) (op : Operation) (e : ℚ)
    (ts : String) (h : s.state = OperationalState.ACTIVE)
    (hm : op.type = none ∨ op.priority = none ∨ op.payload = none) :
    (process_operation s op e ts).1 = .failure "Invalid operation" ∧
    (process_operation s op e ts).2.errors_count = s.errors_count + 1 ∧
    (process_operation s op e ts).2.processed_operations =
      s.processed_operations ∧
    (process_operation s op e ts).2.threats_neutralized =
      s.threats_neutralized ∧
    (process_operation s op e ts).2.response_time_ms =
      s.response_time_ms := by
  have hv : validate_operation op = false := by
    rcases hm with h1 | h1 | h1 <;> simp [validate_operation, h1]
  rw [process_of_invalid s op e ts h hv]
  exact ⟨rfl, rfl, rfl, rfl, rfl⟩

/-- C4 witness: the operation with every required key absent, processed on a
freshly started controller. -/
theorem C4_invalid_operation_witness :
    (process_operation active_ctrl op_missing 5 "t").1 =
      .failure "Invalid operation" ∧
    (process_operation active_ctrl op_missing 5 "t").2.errors_count =
      active_ctrl.errors_count + 1 ∧
    (process_operation active_ctrl op_missing 5 "t").2.processed_operations =
      active_ctrl.processed_operations ∧
    (process_operation active_ctrl op_missing 5 "t").2.threats_neutralized =
      active_ctrl.threats_neutralized ∧
    (process_operation active_ctrl op_missing 5 "t").2.response_time_ms =
      active_ctrl.response_time_ms :=
  C4_invalid_operation active_ctrl op_missing 5 "t" (by decide) (Or.inl rfl)

/-- C5: in every state other than `ACTIVE`, `process_operation` returns the
failure response `Controller not active` with the state record unchanged,
and a repeated call returns exactly the same result. -/
theorem C5_not_active (s : Ctrl) (op : Operation) (e : ℚ) (ts : String)
    (h : s.state ≠ OperationalState.ACTIVE) :
    process_operation s op e ts = (.failure "Controller not active", s) ∧
    process_operation (process_operation s op e ts).2 op e ts =
      process_operation s op e ts := by
  have h1 := process_of_not_active s op e ts h
  exact ⟨h1, by rw [h1]; exact h1⟩

/-- C5 witness: a freshly constructed (OFFLINE) controller. -/
theorem C5_not_active_witness :
    process_operation (mkController 0) op_low 1 "t" =
      (.failure "Controller not active", mkController 0) ∧
    process_operation (process_operation (mkController 0) op_low 1 "t").2
        op_low 1 "t" =
      process_operation (mkController 0) op_low 1 "t" :=
  C5_not_active (mkController 0) op_low 1 "t" (by decide)

/-- C6: a valid operation processed on an `ACTIVE` controller gets the
success response echoing `operation_id = op.id or UNKNOWN`,
`threat_level = (assess_threat op).value`, status `PROCESSED` and the
current timestamp. -/
theorem C6_success_response (s : Ctrl) (op : Operation) (e : ℚ)
    (ts : String) (h : s.state = OperationalState.ACTIVE)
    (hv : validate_operation op = true) :
    (process_operation s op e ts).1 =
      PyResponse.success (op.id.getD "UNKNOWN") (assess_threat op).value
        "PROCESSED" ts := by
  by_cases ht : ThreatLevel.MEDIUM.value ≤ (assess_threat op).value
  · rw [process_of_valid_high s op e ts h hv ht]; rfl
  · rw [process_of_valid_low s op e ts h hv ht]; rfl

/-- C6 witness: the specification's scenario — a valid `HIGH` operation with
id `OP1` yields the success response with operation id `OP1` and threat
level `3`. -/
theorem C6_success_response_witness :
    (process_operation active_ctrl op_high_op1 1 "t").1 =
      PyResponse.success "OP1" 3 "PROCESSED" "t" := by
  have h := C6_success_response active_ctrl op_high_op1 1 "t"
    (by decide) (by decide)
  simpa [op_high_op1, assess_threat, threat_mapping, ThreatLevel.value]
    using h

/-- C7: a valid operation processed on an `ACTIVE` controller increments
`processed_operations` by exactly 1, and increments `threats_neutralized` by
exactly 1 if and only if the assessed threat value is at least `MEDIUM`'s
value; a `LOW`-priority operation leaves `threats_neutralized` unchanged. -/
theorem C7_counter_updates (s : Ctrl) (op : Operation) (e : ℚ) (ts : String)
    (h : s.state = OperationalState.ACTIVE)
    (hv : validate_operation op = true) :
    (process_operation s op e ts).2.processed_operations =
      s.processed_operations + 1 ∧
    ((process_operation s op e ts).2.threats_neutralized =
        s.threats_neutralized + 1 ↔
      ThreatLevel.MEDIUM.value ≤ (assess_threat op).value) ∧
    (op.priority = some "LOW" →
      (process_operation s op e ts).2.threats_neutralized =
        s.threats_neutralized) := by
  by_cases ht : ThreatLevel.MEDIUM.value ≤ (assess_threat op).value
  · rw [process_of_valid_high s op e ts h hv ht]
    refine ⟨rfl, by simpa using ht, ?_⟩
    intro hp
    exfalso
    simp [assess_threat, threat_mapping, hp, ThreatLevel.value] at ht
  · rw [process_of_valid_low s op e ts h hv ht]
    refine ⟨rfl, ?_, fun _ => rfl⟩
    dsimp only
    constructor
    · intro hh; omega
    · intro hh; exact absurd hh ht

/-- C7 witness: the `LOW`-priority scenario — `processed_operations` goes
from 0 to 1 and `threats_neutralized` stays 0. -/
theorem C7_counter_updates_witness :
    (process_operation active_ctrl op_low 1 "t").2.processed_operations =
      active_ctrl.processed_operations + 1 ∧
    ((process_operation active_ctrl op_low 1 "t").2.threats_neutralized =
        active_ctrl.threats_neutralized + 1 ↔ ThreatLevel.MEDIUM.value ≤
      (assess_threat op_low).value) ∧
    (op_low.priority = some "LOW" →
      (process_operation active_ctrl op_low 1 "t").2.threats_neutralized =
        active_ctrl.threats_neutralized) :=
  C7_counter_updates active_ctrl op_low 1 "t" (by decide) (by decide)

/-- C2, counterexample: from the reachable state `READY` (after
`initialize`), `stop()` succeeds and moves the state to `OFFLINE`, although
`READY → OFFLINE` is not an edge of the specification's transition graph and
the claim says `stop()` reaches `OFFLINE` only from `ACTIVE`, with any other
request failing and leaving the state unchanged. -/
theorem C2_counterexample :
    ((controller_init (mkController 0)).2).state = OperationalState.READY ∧
    (stop (controller_init (mkController 0)).2).1 = true ∧
    ((stop (controller_init (mkController 0)).2).2).state =
      OperationalState.OFFLINE ∧
    spec_allowed_edge OperationalState.READY OperationalState.OFFLINE =
      false := by
  decide

/-- C2 (amended): the state changes only via `initialize` (any state
`→ INITIALIZING → READY`, unconditionally), `start` (`READY → ACTIVE`; from
any other state it fails and leaves the state unchanged), `stop` (any state
`→ OFFLINE`, unconditionally), and auto-recovery inside a health cycle
(`→ DEGRADED → ACTIVE` whenever the response time exceeds the threshold and
auto-recovery is enabled); operation processing, sync cycles and status
reads never change the state.  In particular `stop()` reaches `OFFLINE` from
every state, not only `ACTIVE`, and `initialize()` runs from every state,
not only `OFFLINE`. -/
theorem C2_state_graph_amended :
    (∀ s : Ctrl, (controller_init s).1 = true ∧
      ((controller_init s).2).state = OperationalState.READY) ∧
    (∀ s : Ctrl, s.state = OperationalState.READY → start s =
      (true, { s with running := true,
                      state := OperationalState.ACTIVE })) ∧
    (∀ s : Ctrl, s.state ≠ OperationalState.READY → start s = (false, s)) ∧
    (∀ s : Ctrl, (stop s).1 = true ∧
      ((stop s).2).state = OperationalState.OFFLINE) ∧
    (∀ (s : Ctrl) (op : Operation) (e : ℚ) (ts : String),
      ((process_operation s op e ts).2).state = s.state) ∧
    (∀ s : Ctrl, s.config.max_response_time_ms < s.response_time_ms →
      s.config.auto_recovery_enabled = true →
      (health_monitor_cycle s).state = OperationalState.ACTIVE) ∧
    (∀ s : Ctrl, ¬ s.config.max_response_time_ms < s.response_time_ms →
      (health_monitor_cycle s).state = s.state) ∧
    (∀ s : Ctrl, s.config.auto_recovery_enabled = false →
      (health_monitor_cycle s).state = s.state) ∧
    (∀ s : Ctrl, (sync_cycle s).state = s.state) ∧
    (∀ (s : Ctrl) (now : ℚ), (get_status now s).state = s.state) := by
  refine ⟨fun s => ⟨rfl, rfl⟩, start_of_ready, start_of_not_ready,
    fun s => ⟨rfl, rfl⟩, ?_, ?_, ?_, ?_, fun s => rfl, fun s now => rfl⟩
  · intro s op e ts
    unfold process_operation
    split
    · rfl
    · split
      · rfl
      · dsimp only
        split <;> rfl
  · intro s h h2
    rw [health_cycle_of_slow s h h2, recompute_accuracy_state,
      auto_recovery_eq]
  · intro s h
    rw [health_cycle_of_calm s h, recompute_accuracy_state]
  · intro s h
    rw [health_cycle_of_disabled s h, recompute_accuracy_state]

/-- C2 witness: the amended graph at concrete states — a successful `start`
from `READY`, a failing `start` from `OFFLINE`, and a health cycle of a slow
`ACTIVE` controller ending `ACTIVE` again. -/
theorem C2_state_graph_amended_witness :
    start (controller_init (mkController 0)).2 =
      (true, { (controller_init (mkController 0)).2 with
                running := true, state := OperationalState.ACTIVE }) ∧
    start (mkController 0) = (false, mkController 0) ∧
    (health_monitor_cycle slow_ctrl).state = OperationalState.ACTIVE :=
  ⟨C2_state_graph_amended.2.1 _ (by decide),
   C2_state_graph_amended.2.2.1 _ (by decide),
   C2_state_graph_amended.2.2.2.2.2.1 slow_ctrl (by decide) rfl⟩

/-- C8: the auto-recovery procedure first enters `DEGRADED` with
`response_time_ms` reset to `0`, then re-invokes the
connection-establishment step of initialization: a normal return of that
step ends in `ACTIVE`, an exception ends in `FAILED`; since the step of this
program always returns normally, `_auto_recovery` always ends `ACTIVE` with
`response_time_ms = 0`; and a health cycle observing a response time above
`max_response_time_ms` with auto-recovery enabled runs exactly this
procedure (followed by the accuracy recomputation of the same cycle). -/
theorem C8_auto_recovery_procedure :
    (∀ s : Ctrl, (recovery_begin s).state = OperationalState.DEGRADED ∧
      (recovery_begin s).response_time_ms = 0) ∧
    (∀ (s : Ctrl) (b : Bool), auto_recovery_with (Except.ok b) s =
      { recovery_begin s with state := OperationalState.ACTIVE }) ∧
    (∀ (s : Ctrl) (msg : String), auto_recovery_with (Except.error msg) s =
      { recovery_begin s with state := OperationalState.FAILED }) ∧
    establish_secure_connections_exc = Except.ok true ∧
    (∀ s : Ctrl, auto_recovery s =
      auto_recovery_with establish_secure_connections_exc s) ∧
    (∀ s : Ctrl, (auto_recovery s).state = OperationalState.ACTIVE ∧
      (auto_recovery s).response_time_ms = 0) ∧
    (∀ s : Ctrl, s.config.max_response_time_ms < s.response_time_ms →
      s.config.auto_recovery_enabled = true →
      health_monitor_cycle s = recompute_accuracy (auto_recovery s)) :=
  ⟨fun _ => ⟨rfl, rfl⟩, fun _ _ => rfl, fun _ _ => rfl, rfl,
   fun _ => rfl, fun _ => ⟨rfl, rfl⟩, health_cycle_of_slow⟩

/-- C8 witness: the specification's scenario — response time `150` against
the threshold `100` with auto-recovery enabled: the health cycle runs the
recovery and the controller ends `ACTIVE`. -/
theorem C8_auto_recovery_procedure_witness :
    health_monitor_cycle slow_ctrl =
      recompute_accuracy (auto_recovery slow_ctrl) ∧
    (auto_recovery slow_ctrl).state = OperationalState.ACTIVE ∧
    (auto_recovery slow_ctrl).response_time_ms = 0 :=
  ⟨C8_auto_recovery_procedure.2.2.2.2.2.2 slow_ctrl (by decide) rfl,
   C8_auto_recovery_procedure.2.2.2.2.2.1 slow_ctrl⟩

/-- C9, counterexample: `accuracy` is a metrics field other than
`response_time_ms` that decreases across an operation.  From the reachable
state with 2 processed operations, 1 error and accuracy `1`, a
health-monitor cycle leaves `response_time_ms` unchanged but lowers
`accuracy` from `1` to `1/2`, so `response_time_ms` is not the only metrics
field that may decrease. -/
theorem C9_counterexample :
    Reach c9_state ∧
    Step c9_state (health_monitor_cycle c9_state) ∧
    (health_monitor_cycle c9_state).response_time_ms =
      c9_state.response_time_ms ∧
    c9_state.accuracy = 1 ∧
    (health_monitor_cycle c9_state).accuracy = 1/2 := by
  have hb : health_monitor_cycle c9_a = c9_b := by
    rw [health_cycle_of_calm _ (by decide),
      recompute_accuracy_of_pos _ (by decide)]
    norm_num [c9_a, c9_b, Ctrl.mk.injEq]
  have hreach : Reach c9_state := by
    have h0 : Reach (mkController 0) := Reach.base 0
    have h1 := Reach.step h0 (Step.init_step _)
    have h2 := Reach.step h1 (Step.start_step _)
    have h3 : Reach c9_a :=
      Reach.step h2 (Step.process_step _ op_high_op1 1 "t" (by norm_num))
    have h4 : Reach c9_b := hb ▸ Reach.step h3 (Step.health_step _ rfl)
    have h5 : Reach c9_c :=
      Reach.step h4 (Step.process_step _ op_missing 1 "t" (by norm_num))
    exact Reach.step h5 (Step.process_step _ op_low 1 "t" (by norm_num))
  refine ⟨hreach, Step.health_step _ rfl, ?_, rfl, ?_⟩
  · rw [health_cycle_of_calm _ (by decide),
      recompute_accuracy_of_pos _ (by decide)]
  · rw [health_cycle_of_calm _ (by decide),
      recompute_accuracy_of_pos _ (by decide)]
    norm_num [c9_state]

/-- C9 (amended): across every operation of the controller the counters
`processed_operations`, `errors_count` and `threats_neutralized` are
monotonic non-decreasing; `response_time_ms` (overwritten each call, reset
by recovery) and `accuracy` (recomputed each health cycle) are the metrics
fields that may decrease. -/
theorem C9_counters_monotone (s s' : Ctrl) (h : Step s s') :
    s.processed_operations ≤ s'.processed_operations ∧
    s.errors_count ≤ s'.errors_count ∧
    s.threats_neutralized ≤ s'.threats_neutralized := by
  cases h with
  | init_step => exact ⟨le_rfl, le_rfl, le_rfl⟩
  | start_step =>
    unfold start
    split <;> exact ⟨le_rfl, le_rfl, le_rfl⟩
  | stop_step => exact ⟨le_rfl, le_rfl, le_rfl⟩
  | process_step op e ts hp =>
    unfold process_operation
    split
    · exact ⟨le_rfl, le_rfl, le_rfl⟩
    · split
      · exact ⟨le_rfl, Nat.le_succ _, le_rfl⟩
      · dsimp only
        split
        · exact ⟨Nat.le_succ _, le_rfl, Nat.le_succ _⟩
        · exact ⟨Nat.le_succ _, le_rfl, le_rfl⟩
  | health_step hr =>
    have hh := health_cycle_counters s
    rw [hh.1, hh.2.1, hh.2.2]
    exact ⟨le_rfl, le_rfl, le_rfl⟩
  | sync_step hr => exact ⟨le_rfl, le_rfl, le_rfl⟩
  | status_step now => exact ⟨le_rfl, le_rfl, le_rfl⟩

/-- C9 witness: counter monotonicity across a concrete `stop` step on a
fresh controller. -/
theorem C9_counters_monotone_witness :
    (mkController 0).processed_operations ≤
      ((stop (mkController 0)).2).processed_operations ∧
    (mkController 0).errors_count ≤
      ((stop (mkController 0)).2).errors_count ∧
    (mkController 0).threats_neutralized ≤
      ((stop (mkController 0)).2).threats_neutralized :=
  C9_counters_monotone (mkController 0) _ (Step.stop_step (mkController 0))

/-- C10: `initialize` always returns `True` and leaves the state `READY`
from any starting state: each of its four internal steps unconditionally
returns `True` and raises nothing, so the failure branches are
unreachable. -/
theorem C10_initialize_total :
    validate_system_requirements = true ∧
    load_controller_configuration = true ∧
    establish_secure_connections = true ∧
    init_synchronization = true ∧
    ∀ s : Ctrl, controller_init s =
      (true, { s with state := OperationalState.READY }) :=
  ⟨rfl, rfl, rfl, rfl, fun _ => rfl⟩

end Gemini3
